import Mathlib

/-!
# HyperStellar-Pi-DEX dashboard: state model of `src/frontend/src/Dashboard.js`

The React component `Dashboard` keeps five pieces of state (`account`, `balances`,
`priceData`, `arbitrageAlert`, `quantumColor`) and changes them from three places:
the colour interval (lines 17-23), `connectWallet` (lines 25-35) and `fetchPrices`
(lines 37-43, fired by the interval of lines 45-48).  Each of them is embedded below as a
function on an explicit state record.  Everything the environment supplies (the values
returned by `Math.random`, the clock string, the generated keypair, the settled outcome of
each ledger promise) is an explicit argument.

`connectWallet` is an `async` function.  Its writes are `setAccount` before the first
`await` and `setBalances` after the last one, and the value written by `setBalances` does
not read the component state, so the function is embedded as one transition that also
reports how its promise settles and which ledger calls it issued.
-/

namespace Dashboard

/-! ## JavaScript values -/

/-- JavaScript Number (IEEE-754 binary64).  A finite value other than `-0` is carried by the
rational it denotes exactly. -/
inductive JSNumber where
  | nan
  | posInf
  | negInf
  | negZero
  | finite (q : ℚ)
  deriving DecidableEq

/-- JavaScript values as far as the dashboard can tell them apart.  Objects (also functions
and symbols) are opaque references. -/
inductive JSVal where
  | undefined
  | null
  | bool (b : Bool)
  | number (n : JSNumber)
  | bigint (i : Int)
  | string (s : String)
  | object (ref : Nat)
  deriving DecidableEq

/-- The abstract operation `ToBoolean`: the falsy values are `undefined`, `null`, `false`,
`NaN`, `+0`, `-0`, `0n` and the empty string. -/
def JSVal.toBoolean : JSVal → Bool
  | .undefined => false
  | .null => false
  | .bool b => b
  | .number .nan => false
  | .number .negZero => false
  | .number (.finite q) => decide (q ≠ 0)
  | .number .posInf => true
  | .number .negInf => true
  | .bigint i => decide (i ≠ 0)
  | .string s => decide (s ≠ "")
  | .object _ => true

/-- The operator `a || b`: `a` when `a` is truthy, otherwise `b`. -/
def JSVal.or (a b : JSVal) : JSVal :=
  if a.toBoolean then a else b

/-- Strict equality `a === b`: `NaN` differs from itself, `+0` equals `-0`, everything else
is compared by type and value (objects by reference). -/
def JSVal.strictEquals : JSVal → JSVal → Bool
  | .number .nan, _ => false
  | _, .number .nan => false
  | .number .negZero, .number (.finite q) => decide (q = 0)
  | .number (.finite q), .number .negZero => decide (q = 0)
  | a, b => decide (a = b)

/-- The literal `0` of line 31 and of the initial balances. -/
def JSVal.zero : JSVal := .number (.finite 0)

/-! ## Numbers drawn by `Math.random` -/

/-- A value returned by `Math.random()`: a Number `r` with `0 ≤ r < 1`, carried by its exact
rational value. -/
structure Draw where
  val : ℚ
  nonneg : 0 ≤ val
  lt_one : val < 1

/-- Round to the nearest integer, ties to the even one. -/
def roundHalfEven (q : ℚ) : ℤ :=
  let f := ⌊q⌋
  let d := q - f
  if d < 1 / 2 then f
  else if 1 / 2 < d then f + 1
  else if f % 2 = 0 then f else f + 1

/-- Rounding of an exact result to binary64 (round to nearest, ties to even, gradual
underflow), for results of magnitude below `2 ^ 1024`. -/
def toBinary64 (q : ℚ) : ℚ :=
  if q = 0 then 0
  else
    let e := max (Int.log 2 |q|) (-1022)
    let ulp : ℚ := 2 ^ (e - 52)
    roundHalfEven (q / ulp) * ulp

/-- The Number product `Math.random() * k` for a literal `k`. -/
def Draw.times (r : Draw) (k : ℚ) : ℚ :=
  toBinary64 (r.val * k)

/-- The Number denoted by the literal `0.8` of line 42: the binary64 value nearest to 4/5,
which is `3602879701896397 / 2 ^ 52`. -/
def alertThreshold : ℚ := 3602879701896397 / 4503599627370496

/-- The test `Math.random() > 0.8` of line 42. -/
def arbitrageCheck (r : Draw) : Bool :=
  decide (alertThreshold < r.val)

/-- The call `n.toString(16)` for a non-negative integer `n`. -/
def toString16 (n : Nat) : String :=
  String.mk (Nat.toDigits 16 n)

/-! ## Array helpers -/

/-- The call `xs.slice(start)` of `Array.prototype.slice` with one argument: a negative
`start` counts from the end, and the index is clamped to `0 .. xs.length`. -/
def slice {α : Type} (xs : List α) (start : Int) : List α :=
  let len : Int := xs.length
  let k : Int := if start < 0 then max (len + start) 0 else min start len
  xs.drop k.toNat

/-! ## Ledger replies -/

/-- One entry of `stellarAccount.balances`; a property that is absent reads as
`undefined`. -/
structure BalanceLine where
  asset_code : JSVal
  balance : JSVal
  deriving DecidableEq

/-- The value `stellarServer.loadAccount` resolves to, as far as line 31 reads it. -/
structure AccountResponse where
  balances : List BalanceLine
  deriving DecidableEq

/-- The settled outcome of a promise: `ok v` when it resolves to `v`, `error e` when it
rejects with reason `e`. -/
abbrev Settled (α : Type) := Except JSVal α

/-- The ledger calls `connectWallet` can issue. -/
inductive LedgerCall where
  | loadAccount (publicKey : String)
  | getBalance (publicKey : String)
  deriving DecidableEq

/-! ## Component state -/

/-- The `balances` state object of line 9. -/
structure Balances where
  stellar : JSVal
  pi : JSVal
  hyperpi : JSVal
  deriving DecidableEq

/-- One point of `priceData` (line 39). -/
structure PricePoint where
  time : String
  price : ℚ
  deriving DecidableEq

/-- The state of the component (lines 8-12); `account = none` is `null`. -/
structure DashboardState where
  account : Option String
  balances : Balances
  priceData : List PricePoint
  arbitrageAlert : Bool
  quantumColor : String
  deriving DecidableEq

/-- The arguments of the `useState` calls of lines 8-12. -/
def initialState : DashboardState where
  account := none
  balances := ⟨JSVal.zero, JSVal.zero, JSVal.zero⟩
  priceData := []
  arbitrageAlert := false
  quantumColor := "#00ff00"

/-! ## Operations -/

/-- The interval callback of lines 19-21. -/
def colourTick (s : DashboardState) (r : Draw) : DashboardState :=
  { s with quantumColor := "#" ++ toString16 ⌊r.times 16777215⌋.toNat }

/-- The sample built on line 39 from the clock string and the first draw. -/
def newPoint (time : String) (r : Draw) : PricePoint :=
  ⟨time, r.times 100⟩

/-- The function `fetchPrices` of lines 37-43: `time` is `new Date().toLocaleTimeString()`,
`r1` and `r2` are the two `Math.random()` results in call order. -/
def fetchPrices (s : DashboardState) (time : String) (r1 r2 : Draw) : DashboardState :=
  let newData := s.priceData ++ [newPoint time r1]
  let s1 := { s with priceData := slice newData (-20) }
  if arbitrageCheck r2 then { s1 with arbitrageAlert := true } else s1

/-- The expression `balances.find(b => b.asset_code === 'XLM')?.balance || 0` of line 31. -/
def stellarBalance (acct : AccountResponse) : JSVal :=
  let found := acct.balances.find? (fun b => b.asset_code.strictEquals (.string "XLM"))
  let bal := match found with
    | none => JSVal.undefined
    | some b => b.balance
  bal.or JSVal.zero

/-- What one run of `connectWallet` leaves behind: the state, how the returned promise
settles, and the ledger calls issued, in order. -/
structure ConnectOutcome where
  state : DashboardState
  result : Settled Unit
  calls : List LedgerCall

/-- The function `connectWallet` of lines 25-35.  `publicKey` is `keypair.publicKey()` of
the generated keypair; `stellarReply` and `piReply` are the settled outcomes of
`stellarServer.loadAccount` and `piApi.getBalance`.  A rejected `await` throws, which
rejects the promise of the `async` function and skips the rest of its body. -/
def connectWallet (s : DashboardState) (publicKey : String)
    (stellarReply : Settled AccountResponse) (piReply : Settled JSVal) : ConnectOutcome :=
  let s1 := { s with account := some publicKey }
  match stellarReply with
  | .error e => ⟨s1, .error e, [.loadAccount publicKey]⟩
  | .ok stellarAccount =>
    let stellarBal := stellarBalance stellarAccount
    match piReply with
    | .error e => ⟨s1, .error e, [.loadAccount publicKey, .getBalance publicKey]⟩
    | .ok piBal =>
      let hyperpiBal := JSVal.number (.finite 1000)
      ⟨{ s1 with balances := ⟨stellarBal, piBal, hyperpiBal⟩ }, .ok (),
        [.loadAccount publicKey, .getBalance publicKey]⟩

/-! ## Runs of the component -/

/-- The things that change the state: a firing of the colour interval, a firing of the
price interval, a click on "Connect Wallet". -/
inductive Event where
  | colour (r : Draw)
  | price (time : String) (r1 r2 : Draw)
  | connect (publicKey : String) (stellarReply : Settled AccountResponse)
      (piReply : Settled JSVal)

/-- The state after one event. -/
def step (s : DashboardState) : Event → DashboardState
  | .colour r => colourTick s r
  | .price time r1 r2 => fetchPrices s time r1 r2
  | .connect publicKey stellarReply piReply =>
    (connectWallet s publicKey stellarReply piReply).state

/-- The state after a sequence of events, oldest first. -/
def run (s : DashboardState) (events : List Event) : DashboardState :=
  events.foldl step s

/-- One firing of the price interval: the inputs of a `fetchPrices` call. -/
structure Tick where
  time : String
  r1 : Draw
  r2 : Draw

/-- The state after a sequence of price ticks, oldest first. -/
def runTicks (s : DashboardState) (ticks : List Tick) : DashboardState :=
  ticks.foldl (fun st t => fetchPrices st t.time t.r1 t.r2) s

/-- The samples pushed by a sequence of price ticks, in push order. -/
def pushed (ticks : List Tick) : List PricePoint :=
  ticks.map (fun t => newPoint t.time t.r1)

/-- Whether a promise was rejected. -/
def Settled.rejected {α : Type} : Settled α → Bool
  | .error _ => true
  | .ok _ => false

/-! ## The stellar balance in the words of the specification -/

/-- The first entry of a balance list whose `asset_code` is the string `XLM`, if any. -/
def firstXlmEntry : List BalanceLine → Option BalanceLine
  | [] => none
  | b :: rest => if b.asset_code = JSVal.string "XLM" then some b else firstXlmEntry rest

/-- The stellar amount as the specification words it: the balance of the first `XLM`
entry, and `0` when there is no such entry or its balance is falsy. -/
def expectedStellar (acct : AccountResponse) : JSVal :=
  match firstXlmEntry acct.balances with
  | none => JSVal.zero
  | some b => if b.balance.toBoolean = false then JSVal.zero else b.balance

/-! ## Concrete inputs used in the examples -/

/-- The draw `0.5`. -/
def drawHalf : Draw := ⟨1 / 2, by norm_num, by norm_num⟩

/-- The draw `0.875`, above the threshold. -/
def drawHigh : Draw := ⟨7 / 8, by norm_num, by norm_num⟩

/-- The draw that is the Number `0.8` itself. -/
def drawAtThreshold : Draw :=
  ⟨alertThreshold, by norm_num [alertThreshold], by norm_num [alertThreshold]⟩

/-- Twenty-five price ticks, labelled `0` to `24`. -/
def ticks25 : List Tick :=
  (List.range 25).map (fun i => ⟨toString i, drawHalf, drawHalf⟩)

/-- A state in which the alert is showing: the initial state after one tick whose second
draw is `0.875`. -/
def alertedState : DashboardState :=
  fetchPrices initialState "10:00:00" drawHalf drawHigh

/-- An account reply with one `XLM` entry of balance `"5.0000000"`. -/
def xlmAccount : AccountResponse :=
  ⟨[⟨JSVal.string "XLM", JSVal.string "5.0000000"⟩]⟩

/-- The rejection reason used in the examples. -/
def networkError : JSVal := JSVal.string "Network Error"

/-- A state after a fully successful connect from the initial state: account `GA`,
stellar `"5.0000000"`, pi `7`, hyperpi `1000`. -/
def connectedState : DashboardState :=
  (connectWallet initialState "GA" (.ok xlmAccount) (.ok (JSVal.number (.finite 7)))).state

/-! ## The price buffer -/

theorem slice_neg20 {α : Type} (xs : List α) : slice xs (-20) = xs.drop (xs.length - 20) := by
  have h : (max ((xs.length : Int) + -20) 0).toNat = xs.length - 20 := by omega
  simp [slice, h]

theorem priceData_fetchPrices (s : DashboardState) (time : String) (r1 r2 : Draw) :
    (fetchPrices s time r1 r2).priceData
      = (s.priceData ++ [newPoint time r1]).drop ((s.priceData ++ [newPoint time r1]).length - 20) := by
  unfold fetchPrices
  by_cases h : arbitrageCheck r2 = true <;> simp [h, slice_neg20]

theorem runTicks_snoc (s : DashboardState) (ticks : List Tick) (t : Tick) :
    runTicks s (ticks ++ [t]) = fetchPrices (runTicks s ticks) t.time t.r1 t.r2 := by
  simp [runTicks, List.foldl_append]

theorem pushed_snoc (ticks : List Tick) (t : Tick) :
    pushed (ticks ++ [t]) = pushed ticks ++ [newPoint t.time t.r1] := by
  simp [pushed]

theorem length_pushed (ticks : List Tick) : (pushed ticks).length = ticks.length := by
  simp [pushed]

theorem drop_snoc_drop {α : Type} (l : List α) (x : α) (a b : Nat) (ha : a ≤ l.length) :
    (l.drop a ++ [x]).drop b = (l ++ [x]).drop (a + b) := by
  rw [← List.drop_drop, List.drop_append_of_le_length ha]

theorem priceData_runTicks (s : DashboardState) (ticks : List Tick) (h : s.priceData = []) :
    (runTicks s ticks).priceData = (pushed ticks).drop (ticks.length - 20) := by
  induction ticks using List.reverseRecOn with
  | nil => simp [runTicks, pushed, h]
  | append_singleton ticks t ih =>
    rw [runTicks_snoc, priceData_fetchPrices, ih, pushed_snoc,
      drop_snoc_drop _ _ _ _ (by rw [length_pushed]; omega)]
    congr 1
    simp only [List.length_append, List.length_drop, List.length_singleton, length_pushed]
    omega

theorem length_priceData_runTicks (s : DashboardState) (ticks : List Tick)
    (h : s.priceData = []) :
    (runTicks s ticks).priceData.length = min ticks.length 20 := by
  rw [priceData_runTicks s ticks h, List.length_drop, length_pushed]
  omega

/-! ## The alert flag -/

theorem arbitrageCheck_iff (r : Draw) : arbitrageCheck r = true ↔ alertThreshold < r.val := by
  simp [arbitrageCheck]

theorem arbitrageAlert_fetchPrices (s : DashboardState) (time : String) (r1 r2 : Draw) :
    (fetchPrices s time r1 r2).arbitrageAlert = (s.arbitrageAlert || arbitrageCheck r2) := by
  unfold fetchPrices
  by_cases h : arbitrageCheck r2 = true <;> simp [h]

theorem arbitrageAlert_step (s : DashboardState) (e : Event) (h : s.arbitrageAlert = true) :
    (step s e).arbitrageAlert = true := by
  cases e with
  | colour r => simpa [step, colourTick] using h
  | price time r1 r2 => simp [step, arbitrageAlert_fetchPrices, h]
  | connect publicKey stellarReply piReply =>
    cases stellarReply with
    | error e => simpa [step, connectWallet] using h
    | ok a =>
      cases piReply with
      | error e => simpa [step, connectWallet] using h
      | ok p => simpa [step, connectWallet] using h

theorem arbitrageAlert_run (events : List Event) (s : DashboardState)
    (h : s.arbitrageAlert = true) : (run s events).arbitrageAlert = true := by
  induction events generalizing s with
  | nil => simpa [run] using h
  | cons e rest ih =>
    have := ih (step s e) (arbitrageAlert_step s e h)
    simpa [run] using this

theorem arbitrageCheck_drawHalf : arbitrageCheck drawHalf = false := by
  simp [arbitrageCheck, drawHalf, alertThreshold]
  norm_num

theorem arbitrageCheck_drawHigh : arbitrageCheck drawHigh = true := by
  simp [arbitrageCheck, drawHigh, alertThreshold]
  norm_num

theorem arbitrageAlert_alertedState : alertedState.arbitrageAlert = true := by
  simp [alertedState, arbitrageAlert_fetchPrices, arbitrageCheck_drawHigh]

/-! ## Frame lemmas -/

theorem frame_fetchPrices (s : DashboardState) (time : String) (r1 r2 : Draw) :
    (fetchPrices s time r1 r2).balances = s.balances ∧
    (fetchPrices s time r1 r2).account = s.account := by
  unfold fetchPrices
  by_cases h : arbitrageCheck r2 = true <;> simp [h]

theorem state_connectWallet_rejected (s : DashboardState) (publicKey : String)
    (stellarReply : Settled AccountResponse) (piReply : Settled JSVal)
    (h : stellarReply.rejected = true ∨ piReply.rejected = true) :
    (connectWallet s publicKey stellarReply piReply).state
      = { s with account := some publicKey } := by
  cases stellarReply with
  | error e => simp [connectWallet]
  | ok a =>
    cases piReply with
    | error e => simp [connectWallet]
    | ok p => simp [Settled.rejected] at h

/-! ## The stellar balance -/

theorem strictEquals_string (v : JSVal) (t : String) :
    v.strictEquals (JSVal.string t) = decide (v = JSVal.string t) := by
  cases v with
  | number n => cases n <;> simp [JSVal.strictEquals]
  | _ => simp [JSVal.strictEquals]

theorem find_xlm_eq_firstXlmEntry (l : List BalanceLine) :
    l.find? (fun b => b.asset_code.strictEquals (JSVal.string "XLM")) = firstXlmEntry l := by
  simp only [strictEquals_string]
  induction l with
  | nil => rfl
  | cons b rest ih =>
    by_cases hb : b.asset_code = JSVal.string "XLM"
    · simp [List.find?, firstXlmEntry, hb]
    · simp [List.find?, firstXlmEntry, hb, ih]

theorem stellarBalance_eq_expectedStellar (acct : AccountResponse) :
    stellarBalance acct = expectedStellar acct := by
  unfold stellarBalance expectedStellar
  simp only [find_xlm_eq_firstXlmEntry]
  cases firstXlmEntry acct.balances with
  | none => simp [JSVal.or, JSVal.toBoolean]
  | some b =>
    by_cases hb : b.balance.toBoolean = true
    · simp [JSVal.or, hb]
    · simp [JSVal.or, hb]

theorem or_zero_ne_undefined (v : JSVal) : v.or JSVal.zero ≠ JSVal.undefined := by
  unfold JSVal.or
  by_cases hv : v.toBoolean = true
  · rw [if_pos hv]
    intro h
    rw [h] at hv
    simp [JSVal.toBoolean] at hv
  · rw [if_neg hv]
    simp [JSVal.zero]

/-! ## The claims -/

/-- C1. Sliding-window invariant of the price buffer: after any sequence of `k` price ticks
from a state whose buffer is empty, the buffer has length `min k 20` (so at most 20), it
holds exactly the last `min k 20` pushed samples in push order (the older ones are the ones
dropped), its last element is the most recent sample, and after 25 pushes it holds samples
#6..#25. -/
theorem sliding_window_invariant (s : DashboardState) (ticks : List Tick)
    (h : s.priceData = []) :
    (runTicks s ticks).priceData.length = min ticks.length 20 ∧
    (runTicks s ticks).priceData.length ≤ 20 ∧
    (runTicks s ticks).priceData
      = (pushed ticks).drop (ticks.length - min ticks.length 20) ∧
    (runTicks s ticks).priceData.getLast? = (pushed ticks).getLast? ∧
    (ticks.length = 25 → (runTicks s ticks).priceData = (pushed ticks).drop 5) := by
  have hlen := length_priceData_runTicks s ticks h
  have hbuf := priceData_runTicks s ticks h
  refine ⟨hlen, by omega, ?_, ?_, ?_⟩
  · rw [hbuf]
    congr 1
    omega
  · rw [hbuf]
    rcases Nat.eq_zero_or_pos ticks.length with h0 | hpos
    · have : ticks = [] := List.length_eq_zero.mp h0
      subst this
      simp [pushed]
    · rw [List.getLast?_drop, length_pushed, if_neg (by omega)]
  · intro h25
    rw [hbuf, h25]

/-- C1, at a concrete input: 25 ticks from the initial state leave samples #6..#25. -/
theorem sliding_window_invariant_witness :
    initialState.priceData = [] ∧
    (runTicks initialState ticks25).priceData.length = 20 ∧
    (runTicks initialState ticks25).priceData = (pushed ticks25).drop 5 :=
  ⟨rfl,
   (sliding_window_invariant initialState ticks25 rfl).1.trans (by simp [ticks25]),
   (sliding_window_invariant initialState ticks25 rfl).2.2.2.2 (by simp [ticks25])⟩

/-- C5. The alert is sticky: from any state in which `arbitrageAlert` is true, every price
tick (whatever its draws), every colour tick, every connect, and every sequence of such
events leaves the flag true. -/
theorem alert_is_sticky (s : DashboardState) (h : s.arbitrageAlert = true) :
    (∀ time r1 r2, (fetchPrices s time r1 r2).arbitrageAlert = true) ∧
    (∀ r, (colourTick s r).arbitrageAlert = true) ∧
    (∀ publicKey stellarReply piReply,
      (connectWallet s publicKey stellarReply piReply).state.arbitrageAlert = true) ∧
    (∀ events, (run s events).arbitrageAlert = true) :=
  ⟨fun time r1 r2 => arbitrageAlert_step s (.price time r1 r2) h,
   fun r => arbitrageAlert_step s (.colour r) h,
   fun publicKey stellarReply piReply =>
     arbitrageAlert_step s (.connect publicKey stellarReply piReply) h,
   fun events => arbitrageAlert_run events s h⟩

/-- C5, at a concrete input: the alert raised by one tick survives a later tick whose draw
does not trigger. -/
theorem alert_is_sticky_witness :
    alertedState.arbitrageAlert = true ∧
    (fetchPrices alertedState "10:00:10" drawHalf drawHalf).arbitrageAlert = true :=
  ⟨arbitrageAlert_alertedState,
   (alert_is_sticky alertedState arbitrageAlert_alertedState).1 "10:00:10" drawHalf drawHalf⟩

/-- C6 fails as stated: in the state reached by one triggering tick, a tick whose draw 0.5
does not trigger leaves the flag true, so the flag after the tick is not that tick's
evaluation. -/
theorem alert_overwrite_counterexample :
    arbitrageCheck drawHalf = false ∧
    (fetchPrices alertedState "10:00:10" drawHalf drawHalf).arbitrageAlert = true ∧
    (fetchPrices alertedState "10:00:10" drawHalf drawHalf).arbitrageAlert
      ≠ arbitrageCheck drawHalf := by
  have h : (fetchPrices alertedState "10:00:10" drawHalf drawHalf).arbitrageAlert = true := by
    simp [arbitrageAlert_fetchPrices, arbitrageAlert_alertedState]
  refine ⟨arbitrageCheck_drawHalf, h, ?_⟩
  rw [h, arbitrageCheck_drawHalf]
  decide

/-- C6 as amended: the alert flag after a tick is the flag before the tick OR-ed with that
tick's evaluation (`Math.random() > 0.8` on the second draw). -/
theorem alert_accumulates (s : DashboardState) (time : String) (r1 r2 : Draw) :
    (fetchPrices s time r1 r2).arbitrageAlert = (s.arbitrageAlert || arbitrageCheck r2) :=
  arbitrageAlert_fetchPrices s time r1 r2

/-- C7. Balances are written only by a successful connect: a price tick, a colour tick and a
`connectWallet` run in which a ledger query is rejected leave `balances` as it was, and the
two ticks also leave `account` as it was. -/
theorem balances_frame (s : DashboardState) (time : String) (r r1 r2 : Draw)
    (publicKey : String) (stellarReply : Settled AccountResponse) (piReply : Settled JSVal)
    (h : stellarReply.rejected = true ∨ piReply.rejected = true) :
    (fetchPrices s time r1 r2).balances = s.balances ∧
    (fetchPrices s time r1 r2).account = s.account ∧
    (colourTick s r).balances = s.balances ∧
    (colourTick s r).account = s.account ∧
    (connectWallet s publicKey stellarReply piReply).state.balances = s.balances := by
  refine ⟨(frame_fetchPrices s time r1 r2).1, (frame_fetchPrices s time r1 r2).2, rfl, rfl, ?_⟩
  rw [state_connectWallet_rejected s publicKey stellarReply piReply h]

/-- C7, at a concrete input: a connected state keeps its balances through a connect whose
pi query is rejected. -/
theorem balances_frame_witness :
    (Settled.rejected (Except.ok xlmAccount) = true ∨
      @Settled.rejected JSVal (Except.error networkError) = true) ∧
    (connectWallet connectedState "GB" (.ok xlmAccount) (.error networkError)).state.balances
      = connectedState.balances :=
  ⟨Or.inr rfl,
   (balances_frame connectedState "10:00:00" drawHalf drawHalf drawHalf "GB" (.ok xlmAccount)
     (.error networkError) (Or.inr rfl)).2.2.2.2⟩

/-- C9. Alert evaluation is determined by the random draw alone: two ticks that get the same
second draw `r`, in any two states whose alert is not yet showing and with any clock strings
and first draws, leave the same flag; that flag is true exactly when `r > 0.8`; and with `r`
the Number `0.8` itself the tick does not trigger. -/
theorem alert_evaluation_deterministic (s s' : DashboardState) (time time' : String)
    (r1 r1' r : Draw) (h : s.arbitrageAlert = false) (h' : s'.arbitrageAlert = false) :
    (fetchPrices s time r1 r).arbitrageAlert = (fetchPrices s' time' r1' r).arbitrageAlert ∧
    ((fetchPrices s time r1 r).arbitrageAlert = true ↔ alertThreshold < r.val) ∧
    (fetchPrices s time r1 r).arbitrageAlert = arbitrageCheck r ∧
    (fetchPrices s time r1 drawAtThreshold).arbitrageAlert = false := by
  have key : ∀ (st : DashboardState) (t : String) (a b : Draw),
      st.arbitrageAlert = false → (fetchPrices st t a b).arbitrageAlert = arbitrageCheck b := by
    intro st t a b hst
    rw [arbitrageAlert_fetchPrices, hst, Bool.false_or]
  refine ⟨by rw [key s time r1 r h, key s' time' r1' r h'], ?_, key s time r1 r h, ?_⟩
  · rw [key s time r1 r h]
    exact arbitrageCheck_iff r
  · rw [key s time r1 drawAtThreshold h]
    simp [arbitrageCheck, drawAtThreshold]

/-- C9, at a concrete input: the same draw 0.875 triggers both in the initial state and in a
state with an account and balances, and the draw 0.8 does not trigger. -/
theorem alert_evaluation_deterministic_witness :
    initialState.arbitrageAlert = false ∧ connectedState.arbitrageAlert = false ∧
    (fetchPrices initialState "10:00:00" drawHalf drawHigh).arbitrageAlert
      = (fetchPrices connectedState "11:30:00" drawHigh drawHigh).arbitrageAlert ∧
    (fetchPrices initialState "10:00:00" drawHalf drawAtThreshold).arbitrageAlert = false :=
  ⟨rfl, rfl,
   (alert_evaluation_deterministic initialState connectedState "10:00:00" "11:30:00"
     drawHalf drawHigh drawHigh rfl rfl).1,
   (alert_evaluation_deterministic initialState connectedState "10:00:00" "11:30:00"
     drawHalf drawHigh drawHigh rfl rfl).2.2.2⟩

/-- C2 fails as stated: with both ledger queries rejecting, `connectWallet` from the initial
state does not resolve; its promise is rejected with the reason of `loadAccount`. -/
theorem connect_rejects_counterexample :
    (connectWallet initialState "GA" (.error networkError) (.error networkError)).result
      = .error networkError ∧
    (connectWallet initialState "GA" (.error networkError) (.error networkError)).result
      ≠ .ok () := by
  constructor
  · rfl
  · intro h
    cases h

/-- C2 as amended: `connectWallet` resolves exactly when both ledger queries resolve; it is
rejected with reason `e` exactly when `loadAccount` is rejected with `e`, or `loadAccount`
resolves and `getBalance` is rejected with `e`. -/
theorem connect_resolves_iff (s : DashboardState) (publicKey : String)
    (stellarReply : Settled AccountResponse) (piReply : Settled JSVal) :
    ((connectWallet s publicKey stellarReply piReply).result = .ok () ↔
      stellarReply.rejected = false ∧ piReply.rejected = false) ∧
    (∀ e, (connectWallet s publicKey stellarReply piReply).result = .error e ↔
      stellarReply = .error e ∨ (stellarReply.rejected = false ∧ piReply = .error e)) := by
  cases stellarReply with
  | error e1 => simp [connectWallet, Settled.rejected]
  | ok a =>
    cases piReply with
    | error e2 => simp [connectWallet, Settled.rejected]
    | ok p => simp [connectWallet, Settled.rejected]

/-- C3 fails as stated: after a successful connect (stellar `"5.0000000"`, pi `7`), a connect
in which both ledger queries reject sets the account but leaves the balances at their earlier
values, which are not 0. -/
theorem connect_all_fail_counterexample :
    (connectWallet connectedState "GB" (.error networkError) (.error networkError)).state.account
      = some "GB" ∧
    (connectWallet connectedState "GB" (.error networkError)
        (.error networkError)).state.balances
      = ⟨JSVal.string "5.0000000", JSVal.number (.finite 7), JSVal.number (.finite 1000)⟩ ∧
    (connectWallet connectedState "GB" (.error networkError)
        (.error networkError)).state.balances.stellar ≠ JSVal.zero ∧
    (connectWallet connectedState "GB" (.error networkError)
        (.error networkError)).state.balances.pi ≠ JSVal.zero := by
  refine ⟨rfl, ?_, ?_, ?_⟩
  · simp [connectWallet, connectedState, stellarBalance, xlmAccount, JSVal.strictEquals,
      JSVal.or, JSVal.toBoolean, initialState]
  · simp [connectWallet, connectedState, stellarBalance, xlmAccount, JSVal.strictEquals,
      JSVal.or, JSVal.toBoolean, initialState, JSVal.zero]
  · simp [connectWallet, connectedState, stellarBalance, xlmAccount, JSVal.strictEquals,
      JSVal.or, JSVal.toBoolean, initialState, JSVal.zero]

/-- C3 as amended: after `connectWallet` runs with both ledger queries rejecting, the account
is set to the new public key (so it is non-null) and the balances are exactly those of the
prior state; from the initial state every balance therefore equals 0. -/
theorem connect_all_fail_keeps_balances (s : DashboardState) (publicKey : String)
    (e1 e2 : JSVal) :
    (connectWallet s publicKey (.error e1) (.error e2)).state.account = some publicKey ∧
    (connectWallet s publicKey (.error e1) (.error e2)).state.account ≠ none ∧
    (connectWallet s publicKey (.error e1) (.error e2)).state.balances = s.balances ∧
    (connectWallet initialState publicKey (.error e1) (.error e2)).state.balances
      = ⟨JSVal.zero, JSVal.zero, JSVal.zero⟩ := by
  refine ⟨rfl, ?_, rfl, rfl⟩
  simp [connectWallet]

/-- C4 fails as stated: from the initial state, when `loadAccount` resolves with an `XLM`
balance of `"5.0000000"` and `getBalance` rejects, the stellar balance stays 0 instead of
becoming the returned amount; and when `loadAccount` rejects while `getBalance` would resolve
to 7, `getBalance` is never called and the pi balance stays 0. -/
theorem per_ledger_merge_counterexample :
    stellarBalance xlmAccount = JSVal.string "5.0000000" ∧
    (connectWallet initialState "GA" (.ok xlmAccount) (.error networkError)).state.balances.stellar
      = JSVal.zero ∧
    (connectWallet initialState "GA" (.ok xlmAccount) (.error networkError)).state.balances.stellar
      ≠ stellarBalance xlmAccount ∧
    (connectWallet initialState "GA" (.error networkError)
        (.ok (JSVal.number (.finite 7)))).state.balances.pi = JSVal.zero ∧
    (connectWallet initialState "GA" (.error networkError)
        (.ok (JSVal.number (.finite 7)))).state.balances.pi ≠ JSVal.number (.finite 7) ∧
    (connectWallet initialState "GA" (.error networkError)
        (.ok (JSVal.number (.finite 7)))).calls = [LedgerCall.loadAccount "GA"] := by
  have hx : stellarBalance xlmAccount = JSVal.string "5.0000000" := by
    simp [stellarBalance, xlmAccount, JSVal.strictEquals, JSVal.or, JSVal.toBoolean]
  refine ⟨hx, rfl, ?_, rfl, ?_, rfl⟩
  · rw [hx]
    simp [connectWallet, initialState, JSVal.zero]
  · simp [connectWallet, initialState, JSVal.zero]

/-- C4 as amended: in every connect in which exactly one of the two ledger queries fails,
the account is set to the new public key, the promise of `connectWallet` is rejected, and all
balances keep their prior values (nothing is merged); `getBalance` is called exactly when
`loadAccount` resolved, after `loadAccount`. -/
theorem one_failure_keeps_balances (s : DashboardState) (publicKey : String)
    (stellarReply : Settled AccountResponse) (piReply : Settled JSVal)
    (h : stellarReply.rejected ≠ piReply.rejected) :
    (connectWallet s publicKey stellarReply piReply).state.account = some publicKey ∧
    (connectWallet s publicKey stellarReply piReply).state.balances = s.balances ∧
    (connectWallet s publicKey stellarReply piReply).result ≠ .ok () ∧
    (LedgerCall.getBalance publicKey ∈ (connectWallet s publicKey stellarReply piReply).calls
      ↔ stellarReply.rejected = false) ∧
    (connectWallet s publicKey stellarReply piReply).calls.head?
      = some (LedgerCall.loadAccount publicKey) := by
  cases stellarReply with
  | error e1 => simp [connectWallet, Settled.rejected]
  | ok a =>
    cases piReply with
    | error e2 => simp [connectWallet, Settled.rejected]
    | ok p => simp [Settled.rejected] at h

/-- C4 as amended, at a concrete input: `loadAccount` resolves, `getBalance` rejects. -/
theorem one_failure_keeps_balances_witness :
    Settled.rejected (Except.ok xlmAccount) ≠ @Settled.rejected JSVal (Except.error networkError) ∧
    (connectWallet initialState "GA" (.ok xlmAccount) (.error networkError)).state.balances
      = initialState.balances :=
  ⟨by decide,
   (one_failure_keeps_balances initialState "GA" (.ok xlmAccount) (.error networkError)
     (by decide)).2.1⟩

/-- C8 fails as stated: in the connected state whose account is `GA`, running `connectWallet`
again with the generated key `GB` replaces the account. -/
theorem account_replaced_counterexample :
    connectedState.account = some "GA" ∧
    (connectWallet connectedState "GB" (.ok xlmAccount) (.ok JSVal.zero)).state.account
      = some "GB" ∧
    (connectWallet connectedState "GB" (.ok xlmAccount) (.ok JSVal.zero)).state.account
      ≠ connectedState.account := by
  refine ⟨rfl, rfl, ?_⟩
  simp [connectWallet, connectedState]

/-- C8 as amended: `connectWallet` always sets the account to the public key of the keypair
it has just generated, whatever the account was and however the queries settle; so the
account keeps its previous value exactly when that value is the same key. -/
theorem account_set_to_new_key (s : DashboardState) (publicKey : String)
    (stellarReply : Settled AccountResponse) (piReply : Settled JSVal) :
    (connectWallet s publicKey stellarReply piReply).state.account = some publicKey ∧
    ((connectWallet s publicKey stellarReply piReply).state.account = s.account
      ↔ s.account = some publicKey) := by
  have h : (connectWallet s publicKey stellarReply piReply).state.account = some publicKey := by
    cases stellarReply with
    | error e1 => rfl
    | ok a =>
      cases piReply with
      | error e2 => rfl
      | ok p => rfl
  refine ⟨h, ?_⟩
  rw [h]
  exact eq_comm

/-- C10. Postcondition of a fully successful connect: for every key, every account reply and
every pi reply `p`, `connectWallet` resolves, sets the account to the key, sets stellar to
the balance of the first entry whose `asset_code` is `XLM` (0 when there is none or its
balance is falsy, so never `undefined`), pi to `p` and hyperpi to 1000, and leaves the price
buffer and the alert flag as they were. -/
theorem successful_connect_postcondition (s : DashboardState) (publicKey : String)
    (acct : AccountResponse) (p : JSVal) :
    (connectWallet s publicKey (.ok acct) (.ok p)).result = .ok () ∧
    (connectWallet s publicKey (.ok acct) (.ok p)).state.account = some publicKey ∧
    (connectWallet s publicKey (.ok acct) (.ok p)).state.balances.stellar
      = expectedStellar acct ∧
    (connectWallet s publicKey (.ok acct) (.ok p)).state.balances.stellar ≠ JSVal.undefined ∧
    (connectWallet s publicKey (.ok acct) (.ok p)).state.balances.pi = p ∧
    (connectWallet s publicKey (.ok acct) (.ok p)).state.balances.hyperpi
      = JSVal.number (.finite 1000) ∧
    (connectWallet s publicKey (.ok acct) (.ok p)).state.priceData = s.priceData ∧
    (connectWallet s publicKey (.ok acct) (.ok p)).state.arbitrageAlert = s.arbitrageAlert := by
  refine ⟨rfl, rfl, ?_, ?_, rfl, rfl, rfl, rfl⟩
  · exact stellarBalance_eq_expectedStellar acct
  · exact or_zero_ne_undefined _

end Dashboard
